import Mathlib

/-!
Verification of the sidekick-screensaver repository's core animation and
monitoring logic, as a shallow embedding in Lean 4.

The embedding follows the two widget modules:
* `Mystify` models `src/mystify_widget.py` (curve engine, adaptive
  performance governor, emergency throttle, USB-interrupt activity poll);
* `MatrixRain` models `src/sidekick_widget.py` (digital-rain engine,
  emergency throttle, USB-interrupt activity poll).

Python floats are modelled as rationals (ℚ); Python ints as ℕ/ℤ.
Randomized draws (`random.randint`, `random.uniform`) are modelled as
oracle functions supplied as arguments, with their documented ranges
stated as hypotheses where a theorem needs them.
-/

/-- Python `int(x)` on a float: truncation toward zero. -/
def py_int (x : ℚ) : ℤ := if x < 0 then ⌈x⌉ else ⌊x⌋

/-- Python `x % m` on floats: result has the sign of `m`
(for `m > 0` the result lies in `[0, m)`). -/
def py_mod (x m : ℚ) : ℚ := x - m * ⌊x / m⌋

theorem py_int_of_nonneg (x : ℚ) (h : 0 ≤ x) : py_int x = ⌊x⌋ := by
  unfold py_int
  rw [if_neg (not_lt.mpr h)]

theorem py_mod_nonneg (x m : ℚ) (hm : 0 < m) : 0 ≤ py_mod x m := by
  unfold py_mod
  have h1 : (⌊x / m⌋ : ℚ) ≤ x / m := Int.floor_le _
  have h2 : m * (⌊x / m⌋ : ℚ) ≤ m * (x / m) := by
    exact mul_le_mul_of_nonneg_left h1 (le_of_lt hm)
  have h3 : m * (x / m) = x := by
    field_simp
  linarith

theorem py_mod_lt (x m : ℚ) (hm : 0 < m) : py_mod x m < m := by
  unfold py_mod
  have h1 : x / m - 1 < (⌊x / m⌋ : ℚ) := Int.sub_one_lt_floor _
  have h2 : m * (x / m - 1) < m * (⌊x / m⌋ : ℚ) := by
    exact mul_lt_mul_of_pos_left h1 hm
  have h3 : m * (x / m) = x := by
    field_simp
  nlinarith

namespace Mystify

/-- Trail floor from `_update_shape_animations`:
`min_trail = max(5, self.trail_length // 4)`. -/
def min_trail (trail_length : ℕ) : ℕ := max 5 (trail_length / 4)

/-- Trail cap from `_update_shape_animations`:
`max_trail = max(min_trail, int(self.trail_length * self.quality_level))`. -/
def max_trail (trail_length : ℕ) (quality_level : ℚ) : ℕ :=
  max (min_trail trail_length) (py_int ((trail_length : ℚ) * quality_level)).toNat

/-- One trail append-and-truncate step from `_update_shape_animations`
(lines 390-399): gated on `quality_level > 0.7 or frame_count % 2 == 0`,
append the current curve, then `pop(0)` if the trail exceeds `max_trail`. -/
def trail_step {γ : Type} (trail_length : ℕ) (quality_level : ℚ) (frame_count : ℕ)
    (trail : List γ) (current_curve : γ) : List γ :=
  if 7/10 < quality_level ∨ frame_count % 2 = 0 then
    let t := trail ++ [current_curve]
    if max_trail trail_length quality_level < t.length then t.drop 1 else t
  else trail

end Mystify

/-- C1: for every configured trail length `L` and quality `q ∈ [0,1]`, the
effective cap used when truncating a shape's trail equals
`max(max(5, L/4), floor(L*q))`, and one append-and-truncate step of
`_update_shape_animations` keeps the trail at or below that cap. -/
theorem trail_cap_spec (L : ℕ) (q : ℚ) (hq0 : 0 ≤ q) (hq1 : q ≤ 1) :
    Mystify.max_trail L q = max (max 5 (L / 4)) (⌊(L : ℚ) * q⌋.toNat) ∧
    ∀ (trail : List (List (ℚ × ℚ))) (c : List (ℚ × ℚ)) (fc : ℕ),
      trail.length ≤ Mystify.max_trail L q →
      (Mystify.trail_step L q fc trail c).length ≤ Mystify.max_trail L q := by
  constructor
  · unfold Mystify.max_trail Mystify.min_trail
    rw [py_int_of_nonneg _ (mul_nonneg (by positivity) hq0)]
  · intro trail c fc hlen
    unfold Mystify.trail_step
    split_ifs with hgate
    · dsimp only
      split_ifs with hover
      · simp only [List.length_drop, List.length_append, List.length_singleton]
        omega
      · simp only [List.length_append, List.length_singleton] at hover ⊢
        omega
    · exact hlen

/-- Witness for `trail_cap_spec` at `L = 50`, `q = 1/2`. -/
theorem trail_cap_spec_witness :
    Mystify.max_trail 50 (1/2) = max (max 5 (50 / 4)) (⌊(50 : ℚ) * (1/2)⌋.toNat) ∧
    ∀ (trail : List (List (ℚ × ℚ))) (c : List (ℚ × ℚ)) (fc : ℕ),
      trail.length ≤ Mystify.max_trail 50 (1/2) →
      (Mystify.trail_step 50 (1/2) fc trail c).length ≤ Mystify.max_trail 50 (1/2) :=
  trail_cap_spec 50 (1/2) (by norm_num) (by norm_num)

namespace Mystify

/-- `check_usb_activity` from `mystify_widget.py` (strict variant).
Inputs: `time_since_start` (seconds since the screensaver started),
`total_interrupts` (the freshly summed USB+HID interrupt total), and the
stored `usb_interrupt_baseline`.  Returns the new baseline and whether the
exit signal is emitted.  The 10-second startup grace period returns early;
the first poll past it establishes the baseline; afterwards activity is
reported iff the interrupt delta exceeds 50, and the baseline is updated
to the new total in both branches. -/
def check_usb_activity (time_since_start : ℚ) (total_interrupts : ℕ)
    (usb_interrupt_baseline : Option ℕ) : Option ℕ × Bool :=
  if time_since_start < 10 then (usb_interrupt_baseline, false)
  else
    match usb_interrupt_baseline with
    | none => (some total_interrupts, false)
    | some b =>
      if 50 < (total_interrupts : ℤ) - (b : ℤ) then (some total_interrupts, true)
      else (some total_interrupts, false)

end Mystify

namespace MatrixRain

/-- `check_usb_activity` from `sidekick_widget.py` (permissive variant):
no grace period, and any strictly positive interrupt delta reports
activity.  The baseline is updated to the new total in both branches. -/
def check_usb_activity (total_interrupts : ℕ)
    (usb_interrupt_baseline : Option ℕ) : Option ℕ × Bool :=
  match usb_interrupt_baseline with
  | none => (some total_interrupts, false)
  | some b =>
    if 0 < (total_interrupts : ℤ) - (b : ℤ) then (some total_interrupts, true)
    else (some total_interrupts, false)

end MatrixRain

/-- C2 counterexample: in the strict (mystify) variant the first poll after
construction happens inside the 10 s startup grace period (the USB timer
fires every 2 s), and that poll reports no activity but does NOT establish
the baseline from the current total, contradicting the claim that the
first poll always establishes it. -/
theorem first_poll_counterexample :
    Mystify.check_usb_activity 2 7 none = (none, false) ∧
    (none : Option ℕ) ≠ some 7 := by
  constructor
  · rfl
  · simp

/-- C2 amended: a first poll (unset baseline) always reports no activity;
in the permissive variant it always establishes the baseline from the
current total, while in the strict variant it does so exactly when the
10 s startup grace period has elapsed — polls inside the grace period
leave the baseline unset. -/
theorem first_poll_behavior :
    (∀ total : ℕ, MatrixRain.check_usb_activity total none = (some total, false)) ∧
    (∀ (tss : ℚ) (total : ℕ), 10 ≤ tss →
      Mystify.check_usb_activity tss total none = (some total, false)) ∧
    (∀ (tss : ℚ) (total : ℕ), tss < 10 →
      Mystify.check_usb_activity tss total none = (none, false)) := by
  refine ⟨fun total => rfl, fun tss total h => ?_, fun tss total h => ?_⟩
  · unfold Mystify.check_usb_activity
    rw [if_neg (not_lt.mpr h)]
  · unfold Mystify.check_usb_activity
    rw [if_pos h]

/-- Witness for `first_poll_behavior` at concrete totals and times. -/
theorem first_poll_behavior_witness :
    MatrixRain.check_usb_activity 42 none = (some 42, false) ∧
    Mystify.check_usb_activity 12 42 none = (some 42, false) ∧
    Mystify.check_usb_activity 3 42 none = (none, false) :=
  ⟨first_poll_behavior.1 42,
   first_poll_behavior.2.1 12 42 (by norm_num),
   first_poll_behavior.2.2 3 42 (by norm_num)⟩

/-- C3: with an established baseline `B` and a new total `T`, a poll
reports activity iff `T - B` exceeds the threshold (0 in the permissive
variant, 50 in the strict variant past its grace period), and the stored
baseline equals `T` afterwards in either case. -/
theorem poll_threshold_spec (B T : ℕ) :
    ((MatrixRain.check_usb_activity T (some B)).2 = true ↔ 0 < (T : ℤ) - (B : ℤ)) ∧
    (MatrixRain.check_usb_activity T (some B)).1 = some T ∧
    ∀ tss : ℚ, 10 ≤ tss →
      ((Mystify.check_usb_activity tss T (some B)).2 = true ↔ 50 < (T : ℤ) - (B : ℤ)) ∧
      (Mystify.check_usb_activity tss T (some B)).1 = some T := by
  refine ⟨?_, ?_, fun tss h => ⟨?_, ?_⟩⟩
  · unfold MatrixRain.check_usb_activity
    dsimp only
    split_ifs with hd
    · simpa using hd
    · simpa using hd
  · unfold MatrixRain.check_usb_activity
    dsimp only
    split_ifs <;> rfl
  · unfold Mystify.check_usb_activity
    rw [if_neg (not_lt.mpr h)]
    dsimp only
    split_ifs with hd
    · simpa using hd
    · simpa using hd
  · unfold Mystify.check_usb_activity
    rw [if_neg (not_lt.mpr h)]
    dsimp only
    split_ifs <;> rfl

/-- Witness for `poll_threshold_spec`: baseline 100, total 180 (delta 80
exceeds both thresholds). -/
theorem poll_threshold_spec_witness :
    (((MatrixRain.check_usb_activity 180 (some 100)).2 = true ↔
        0 < (180 : ℤ) - (100 : ℤ)) ∧
      (MatrixRain.check_usb_activity 180 (some 100)).1 = some 180 ∧
      ∀ tss : ℚ, 10 ≤ tss →
        ((Mystify.check_usb_activity tss 180 (some 100)).2 = true ↔
          50 < (180 : ℤ) - (100 : ℤ)) ∧
        (Mystify.check_usb_activity tss 180 (some 100)).1 = some 180) ∧
    (10 : ℚ) ≤ 14 :=
  ⟨poll_threshold_spec 100 180, by norm_num⟩

namespace Mystify

/-- A stored trail entry: the point list of one rendered closed curve
(`QPainterPath` in the source, kept abstract as its points). -/
def Curve : Type := List (ℚ × ℚ)

/-- A geometric shape of the curve engine (`init_shapes` dictionary). -/
structure Shape where
  control_points : List (ℚ × ℚ)
  velocities : List (ℚ × ℚ)
  control_velocities : List (ℚ × ℚ)
  color_hue : ℚ
  color_shift : ℚ
  size_factor : ℚ
  curve_tension : ℚ
deriving DecidableEq

/-- The mutable widget state touched by the performance governor and the
emergency throttle (`MystifyWidget` attributes).  `frame_skip` models the
source's frame-skip field; `fps_setting` is the resolved
`settings.get('fps', settings.get('target_fps', 30))` value. -/
structure MystifyState where
  shapes : List Shape
  shape_trails : List (List Curve)
  quality_level : ℚ
  trail_length : ℕ
  frame_skip : ℕ
  is_emergency_throttled : Bool
  timer_interval : ℕ
  fps_setting : ℕ

/-- Initial quality level (`self.quality_level = 1.0`). -/
def quality_level_start : ℚ := 1

/-- Frame-time branch of `adaptive_performance_adjustment`: with a
non-empty frame-time window, compare the average against the 30 FPS
target frame time; reduce quality by 0.05 (floored at 0.5) when frames
take over twice the target, raise it by 0.05 (capped at 1.0) when they
take under 0.8× the target. -/
def frame_time_adjust (frame_times : List ℚ) (s : MystifyState) : MystifyState :=
  if frame_times = [] then s
  else if (1/30 : ℚ) * 2 < frame_times.sum / (frame_times.length : ℚ) then
    { s with quality_level := max (1/2) (s.quality_level - 1/20) }
  else if frame_times.sum / (frame_times.length : ℚ) < (1/30 : ℚ) * (8/10) then
    { s with quality_level := min 1 (s.quality_level + 1/20) }
  else s

/-- CPU branch of `adaptive_performance_adjustment`: above the 40% CPU
threshold reduce quality by 0.1 (floored at 0.3); above 70% additionally
raise the frame-skip value (capped at 4) instead of removing shapes. -/
def cpu_adjust (cpu : ℚ) (s : MystifyState) : MystifyState :=
  if 40 < cpu then
    if 70 < cpu then
      { s with quality_level := max (3/10) (s.quality_level - 1/10),
               frame_skip := min 4 (s.frame_skip + 1) }
    else
      { s with quality_level := max (3/10) (s.quality_level - 1/10) }
  else s

/-- Memory branch of `adaptive_performance_adjustment`: above the 70%
memory threshold reduce quality by 0.1 (floored at 0.3); above 85%
additionally shrink the configured trail length to
`max(10, int(trail_length * 0.8))`. -/
def memory_adjust (mem : ℚ) (s : MystifyState) : MystifyState :=
  if 70 < mem then
    if 85 < mem then
      { s with quality_level := max (3/10) (s.quality_level - 1/10),
               trail_length := max 10 ((py_int ((s.trail_length : ℚ) * (8/10))).toNat) }
    else
      { s with quality_level := max (3/10) (s.quality_level - 1/10) }
  else s

/-- `adaptive_performance_adjustment` runs the frame-time, CPU and memory
branches in source order. -/
def adaptive_performance_adjustment (cpu mem : ℚ) (frame_times : List ℚ)
    (s : MystifyState) : MystifyState :=
  memory_adjust mem (cpu_adjust cpu (frame_time_adjust frame_times s))

/-- Energy-efficient clamp inside `_apply_performance_optimizations`: on
every 5th frame, if more than 30 s passed since the last activity check,
clamp quality to at most 0.7 (`time_since_activity = none` models the
first visit, which only records the timestamp). -/
def energy_clamp (energy_efficient : Bool) (frame_count : ℕ)
    (time_since_activity : Option ℚ) (q : ℚ) : ℚ :=
  if energy_efficient ∧ frame_count % 5 = 0 then
    match time_since_activity with
    | some t => if 30 < t then min (7/10) q else q
    | none => q
  else q

/-- `_apply_performance_optimizations`: in power-saving mode skip every
odd frame (returning `true` without touching quality) and clamp quality
to at most 0.6; then apply the energy-efficient clamp.  Returns
(skip-frame flag, new quality level). -/
def apply_performance_optimizations (power_saving energy_efficient : Bool)
    (frame_count : ℕ) (time_since_activity : Option ℚ) (q : ℚ) : Bool × ℚ :=
  if power_saving ∧ frame_count % 2 ≠ 0 then (true, q)
  else (false, energy_clamp energy_efficient frame_count time_since_activity
    (if power_saving then min (6/10) q else q))

/-- `check_emergency_cpu_throttle` from `mystify_widget.py`: above 90%
CPU enter the throttled state with a 1000 ms tick interval (once); at or
below 90% leave it, restoring `1000 // fps` where `fps` is the configured
value with 0 mapped to 60. -/
def check_emergency_cpu_throttle (cpu : ℚ) (s : MystifyState) : MystifyState :=
  if 90 < cpu then
    if s.is_emergency_throttled then s
    else { s with is_emergency_throttled := true, timer_interval := 1000 }
  else
    if s.is_emergency_throttled then
      { s with is_emergency_throttled := false,
               timer_interval := 1000 / (if s.fps_setting = 0 then 60 else s.fps_setting) }
    else s

end Mystify

namespace MatrixRain

/-- A rain column (`MatrixColumn` in `sidekick_widget.py`). -/
structure MatrixColumn where
  x : ℤ
  characters : List Char
  char_positions : List ℚ
  char_ages : List ℕ
  head_position : ℚ
  speed : ℚ
  length : ℕ

/-- The matrix-widget state touched by the emergency throttle. -/
structure MatrixState where
  columns : List MatrixColumn
  is_emergency_throttled : Bool
  timer_interval : ℕ
  target_fps : ℕ

/-- `check_emergency_cpu_throttle` from `sidekick_widget.py`: identical
logic, but the restored interval is `int(1000 / target_fps)` for a
positive target and 1 ms (unlimited) otherwise. -/
def check_emergency_cpu_throttle (cpu : ℚ) (t : MatrixState) : MatrixState :=
  if 90 < cpu then
    if t.is_emergency_throttled then t
    else { t with is_emergency_throttled := true, timer_interval := 1000 }
  else
    if t.is_emergency_throttled then
      { t with is_emergency_throttled := false,
               timer_interval :=
                 if 0 < t.target_fps then
                   (py_int ((1000 : ℚ) / (t.target_fps : ℚ))).toNat
                 else 1 }
    else t

end MatrixRain

/-- Number of transitions into the throttled state along a run of CPU
samples, driven by a step function and a throttled-flag projection. -/
def enable_count {σ : Type} (step : σ → ℚ → σ) (thr : σ → Bool) :
    σ → List ℚ → ℕ
  | _, [] => 0
  | s, c :: cs =>
    (if thr s = false ∧ thr (step s c) = true then 1 else 0) +
      enable_count step thr (step s c) cs

/-- Number of transitions out of the throttled state along a run. -/
def disable_count {σ : Type} (step : σ → ℚ → σ) (thr : σ → Bool) :
    σ → List ℚ → ℕ
  | _, [] => 0
  | s, c :: cs =>
    (if thr s = true ∧ thr (step s c) = false then 1 else 0) +
      disable_count step thr (step s c) cs

lemma mystify_throttle_enable (c : ℚ) (s : Mystify.MystifyState) (h : 90 < c)
    (ht : s.is_emergency_throttled = false) :
    Mystify.check_emergency_cpu_throttle c s =
      { s with is_emergency_throttled := true, timer_interval := 1000 } := by
  unfold Mystify.check_emergency_cpu_throttle
  rw [if_pos h]
  simp [ht]

lemma mystify_throttle_stay_on (c : ℚ) (s : Mystify.MystifyState) (h : 90 < c)
    (ht : s.is_emergency_throttled = true) :
    Mystify.check_emergency_cpu_throttle c s = s := by
  unfold Mystify.check_emergency_cpu_throttle
  rw [if_pos h]
  simp [ht]

lemma mystify_throttle_release (c : ℚ) (s : Mystify.MystifyState) (h : c ≤ 90)
    (ht : s.is_emergency_throttled = true) :
    Mystify.check_emergency_cpu_throttle c s =
      { s with is_emergency_throttled := false,
               timer_interval :=
                 1000 / (if s.fps_setting = 0 then 60 else s.fps_setting) } := by
  unfold Mystify.check_emergency_cpu_throttle
  rw [if_neg (not_lt.mpr h)]
  simp [ht]

lemma mystify_throttle_stay_off (c : ℚ) (s : Mystify.MystifyState) (h : c ≤ 90)
    (ht : s.is_emergency_throttled = false) :
    Mystify.check_emergency_cpu_throttle c s = s := by
  unfold Mystify.check_emergency_cpu_throttle
  rw [if_neg (not_lt.mpr h)]
  simp [ht]

lemma matrix_throttle_enable (c : ℚ) (t : MatrixRain.MatrixState) (h : 90 < c)
    (ht : t.is_emergency_throttled = false) :
    MatrixRain.check_emergency_cpu_throttle c t =
      { t with is_emergency_throttled := true, timer_interval := 1000 } := by
  unfold MatrixRain.check_emergency_cpu_throttle
  rw [if_pos h]
  simp [ht]

lemma matrix_throttle_stay_on (c : ℚ) (t : MatrixRain.MatrixState) (h : 90 < c)
    (ht : t.is_emergency_throttled = true) :
    MatrixRain.check_emergency_cpu_throttle c t = t := by
  unfold MatrixRain.check_emergency_cpu_throttle
  rw [if_pos h]
  simp [ht]

lemma matrix_throttle_release (c : ℚ) (t : MatrixRain.MatrixState) (h : c ≤ 90)
    (ht : t.is_emergency_throttled = true) :
    MatrixRain.check_emergency_cpu_throttle c t =
      { t with is_emergency_throttled := false,
               timer_interval :=
                 if 0 < t.target_fps then
                   (py_int ((1000 : ℚ) / (t.target_fps : ℚ))).toNat
                 else 1 } := by
  unfold MatrixRain.check_emergency_cpu_throttle
  rw [if_neg (not_lt.mpr h)]
  simp [ht]

lemma matrix_throttle_stay_off (c : ℚ) (t : MatrixRain.MatrixState) (h : c ≤ 90)
    (ht : t.is_emergency_throttled = false) :
    MatrixRain.check_emergency_cpu_throttle c t = t := by
  unfold MatrixRain.check_emergency_cpu_throttle
  rw [if_neg (not_lt.mpr h)]
  simp [ht]

lemma enable_count_zero_of_fixed {σ : Type} (step : σ → ℚ → σ) (thr : σ → Bool)
    (samples : List ℚ) :
    ∀ s : σ, (∀ (s2 : σ) (c : ℚ), c ∈ samples → thr s2 = true → step s2 c = s2) →
      thr s = true → enable_count step thr s samples = 0 := by
  induction samples with
  | nil => intro s _ _; rfl
  | cons c cs ih =>
    intro s hfix ht
    unfold enable_count
    rw [hfix s c (List.mem_cons_self c cs) ht, ht]
    rw [if_neg (by simp)]
    rw [Nat.zero_add]
    exact ih s (fun s2 c2 hc2 => hfix s2 c2 (List.mem_cons_of_mem c hc2)) ht

lemma disable_count_zero_of_fixed {σ : Type} (step : σ → ℚ → σ) (thr : σ → Bool)
    (samples : List ℚ) :
    ∀ s : σ, (∀ (s2 : σ) (c : ℚ), c ∈ samples → thr s2 = false → step s2 c = s2) →
      thr s = false → disable_count step thr s samples = 0 := by
  induction samples with
  | nil => intro s _ _; rfl
  | cons c cs ih =>
    intro s hfix ht
    unfold disable_count
    rw [hfix s c (List.mem_cons_self c cs) ht, ht]
    rw [if_neg (by simp)]
    rw [Nat.zero_add]
    exact ih s (fun s2 c2 hc2 => hfix s2 c2 (List.mem_cons_of_mem c hc2)) ht

lemma foldl_fixed_of_thr {σ : Type} (step : σ → ℚ → σ) (thr : σ → Bool)
    (samples : List ℚ) :
    ∀ s : σ, (∀ (s2 : σ) (c : ℚ), c ∈ samples → thr s2 = true → step s2 c = s2) →
      thr s = true → samples.foldl step s = s := by
  induction samples with
  | nil => intro s _ _; rfl
  | cons c cs ih =>
    intro s hfix ht
    rw [List.foldl_cons, hfix s c (List.mem_cons_self c cs) ht]
    exact ih s (fun s2 c2 hc2 => hfix s2 c2 (List.mem_cons_of_mem c hc2)) ht

/-- `calculate_drift_position`, identical in `mystify_widget.py` and
`sidekick_widget.py`: when drift is disabled return the fixed position
`(10, 30)`; otherwise split the drift cycle into four quarter phases (top,
right, bottom, left edge) and interpolate linearly along the current edge,
truncating the float coordinates with `int()` at the end. -/
def calculate_drift_position (stats_drift : Bool) (elapsed drift_cycle_duration
    screen_width screen_height drift_margin : ℚ) : ℤ × ℤ :=
  if stats_drift = false then (10, 30)
  else
    let cycle_progress := py_mod elapsed drift_cycle_duration / drift_cycle_duration
    if cycle_progress < 1/4 then
      let edge_progress := cycle_progress * 4
      (py_int (drift_margin +
        edge_progress * (screen_width - 2 * drift_margin - 300)),
       py_int drift_margin)
    else if cycle_progress < 1/2 then
      let edge_progress := (cycle_progress - 1/4) * 4
      (py_int (screen_width - drift_margin - 300),
       py_int (drift_margin +
        edge_progress * (screen_height - 2 * drift_margin - 80)))
    else if cycle_progress < 3/4 then
      let edge_progress := (cycle_progress - 1/2) * 4
      (py_int (screen_width - drift_margin - 300 -
        edge_progress * (screen_width - 2 * drift_margin - 300)),
       py_int (screen_height - drift_margin - 80))
    else
      let edge_progress := (cycle_progress - 3/4) * 4
      (py_int drift_margin,
       py_int (screen_height - drift_margin - 80 -
        edge_progress * (screen_height - 2 * drift_margin - 80)))

/-- C9: the drift position is cycle-closed — with drift enabled and all
other inputs equal, evaluating at `elapsed = 0` and at
`elapsed = cycleDuration` returns identical coordinates, because the
progress is `(elapsed mod cycleDuration) / cycleDuration`. -/
theorem drift_cycle_closure (d w h m : ℚ) (hd : 0 < d) :
    calculate_drift_position true 0 d w h m =
    calculate_drift_position true d d w h m := by
  have hne : d ≠ 0 := ne_of_gt hd
  have h0 : py_mod 0 d = 0 := by
    unfold py_mod
    norm_num
  have h1 : py_mod d d = 0 := by
    unfold py_mod
    rw [div_self hne]
    norm_num
  unfold calculate_drift_position
  rw [h0, h1]

/-- Witness for `drift_cycle_closure` with the source's 480 s cycle on a
1920×1080 screen with the 50 px margin. -/
theorem drift_cycle_closure_witness :
    calculate_drift_position true 0 480 1920 1080 50 =
    calculate_drift_position true 480 480 1920 1080 50 :=
  drift_cycle_closure 480 1920 1080 50 (by norm_num)

/-- C4: the emergency-throttle check, viewed as a step relation on
(isThrottled, timerInterval) driven by sampled CPU, in both widgets:
entering the throttled state happens exactly once per continuous run of
samples with CPU > 90 (a sample above 90 while already throttled leaves
the state untouched) and forces a 1000 ms interval regardless of the
configured FPS; leaving happens exactly once when a sample is ≤ 90,
restoring the configured interval; and the interval stays 1000 ms for
the whole throttled run. -/
theorem emergency_throttle_spec :
    (∀ (c : ℚ) (s : Mystify.MystifyState), 90 < c →
      s.is_emergency_throttled = false →
      Mystify.check_emergency_cpu_throttle c s =
        { s with is_emergency_throttled := true, timer_interval := 1000 }) ∧
    (∀ (c : ℚ) (s : Mystify.MystifyState), 90 < c →
      s.is_emergency_throttled = true →
      Mystify.check_emergency_cpu_throttle c s = s) ∧
    (∀ (c : ℚ) (s : Mystify.MystifyState), c ≤ 90 →
      s.is_emergency_throttled = true →
      Mystify.check_emergency_cpu_throttle c s =
        { s with is_emergency_throttled := false,
                 timer_interval :=
                   1000 / (if s.fps_setting = 0 then 60 else s.fps_setting) }) ∧
    (∀ (c : ℚ) (s : Mystify.MystifyState), c ≤ 90 →
      s.is_emergency_throttled = false →
      Mystify.check_emergency_cpu_throttle c s = s) ∧
    (∀ (c : ℚ) (t : MatrixRain.MatrixState), 90 < c →
      t.is_emergency_throttled = false →
      MatrixRain.check_emergency_cpu_throttle c t =
        { t with is_emergency_throttled := true, timer_interval := 1000 }) ∧
    (∀ (c : ℚ) (t : MatrixRain.MatrixState), 90 < c →
      t.is_emergency_throttled = true →
      MatrixRain.check_emergency_cpu_throttle c t = t) ∧
    (∀ (c : ℚ) (t : MatrixRain.MatrixState), c ≤ 90 →
      t.is_emergency_throttled = true →
      MatrixRain.check_emergency_cpu_throttle c t =
        { t with is_emergency_throttled := false,
                 timer_interval :=
                   if 0 < t.target_fps then
                     (py_int ((1000 : ℚ) / (t.target_fps : ℚ))).toNat
                   else 1 }) ∧
    (∀ (c : ℚ) (t : MatrixRain.MatrixState), c ≤ 90 →
      t.is_emergency_throttled = false →
      MatrixRain.check_emergency_cpu_throttle c t = t) ∧
    (∀ (s : Mystify.MystifyState) (samples : List ℚ), samples ≠ [] →
      (∀ c ∈ samples, 90 < c) → s.is_emergency_throttled = false →
      enable_count (fun s2 c => Mystify.check_emergency_cpu_throttle c s2)
        (fun s2 => s2.is_emergency_throttled) s samples = 1 ∧
      (samples.foldl (fun s2 c => Mystify.check_emergency_cpu_throttle c s2)
        s).is_emergency_throttled = true ∧
      (samples.foldl (fun s2 c => Mystify.check_emergency_cpu_throttle c s2)
        s).timer_interval = 1000) ∧
    ∀ (s : Mystify.MystifyState) (samples : List ℚ), samples ≠ [] →
      (∀ c ∈ samples, c ≤ 90) → s.is_emergency_throttled = true →
      disable_count (fun s2 c => Mystify.check_emergency_cpu_throttle c s2)
        (fun s2 => s2.is_emergency_throttled) s samples = 1 := by
  refine ⟨mystify_throttle_enable, mystify_throttle_stay_on,
    mystify_throttle_release, mystify_throttle_stay_off,
    fun c t h ht => matrix_throttle_enable c t h ht,
    fun c t h ht => matrix_throttle_stay_on c t h ht,
    fun c t h ht => matrix_throttle_release c t h ht,
    fun c t h ht => matrix_throttle_stay_off c t h ht, ?_, ?_⟩
  · intro s samples hne hall ht
    rcases samples with _ | ⟨c, cs⟩
    · exact absurd rfl hne
    · have hstep := mystify_throttle_enable c s (hall c (List.mem_cons_self c cs)) ht
      have hfix : ∀ (s2 : Mystify.MystifyState) (c2 : ℚ), c2 ∈ cs →
          s2.is_emergency_throttled = true →
          Mystify.check_emergency_cpu_throttle c2 s2 = s2 :=
        fun s2 c2 hc2 ht2 =>
          mystify_throttle_stay_on c2 s2 (hall c2 (List.mem_cons_of_mem c hc2)) ht2
      have hthr1 : ({ s with
                      is_emergency_throttled := true,
                      timer_interval := 1000 } :
          Mystify.MystifyState).is_emergency_throttled = true := rfl
      refine ⟨?_, ?_, ?_⟩
      · unfold enable_count
        rw [hstep, ht]
        rw [if_pos ⟨rfl, hthr1⟩]
        rw [enable_count_zero_of_fixed _ _ cs _ hfix hthr1]
      · rw [List.foldl_cons, hstep,
          foldl_fixed_of_thr _ _ cs _ hfix hthr1]
      · rw [List.foldl_cons, hstep,
          foldl_fixed_of_thr _ _ cs _ hfix hthr1]
  · intro s samples hne hall ht
    rcases samples with _ | ⟨c, cs⟩
    · exact absurd rfl hne
    · have hstep := mystify_throttle_release c s (hall c (List.mem_cons_self c cs)) ht
      have hfix : ∀ (s2 : Mystify.MystifyState) (c2 : ℚ), c2 ∈ cs →
          s2.is_emergency_throttled = false →
          Mystify.check_emergency_cpu_throttle c2 s2 = s2 :=
        fun s2 c2 hc2 ht2 =>
          mystify_throttle_stay_off c2 s2 (hall c2 (List.mem_cons_of_mem c hc2)) ht2
      have hthr1 : ({ s with
                      is_emergency_throttled := false,
                      timer_interval := 1000 /
                        (if s.fps_setting = 0 then 60 else s.fps_setting) } :
          Mystify.MystifyState).is_emergency_throttled = false := rfl
      unfold disable_count
      rw [hstep, ht]
      rw [if_pos ⟨rfl, hthr1⟩]
      rw [disable_count_zero_of_fixed _ _ cs _ hfix hthr1]

/-- A concrete mystify widget state for witnesses. -/
def mystify_state0 : Mystify.MystifyState :=
  { shapes := [], shape_trails := [], quality_level := 1, trail_length := 50,
    frame_skip := 1, is_emergency_throttled := false, timer_interval := 33,
    fps_setting := 30 }

/-- Witness for `emergency_throttle_spec`: a CPU sample of 95% throttles
the unthrottled test state to a 1000 ms interval, and the run [95, 99]
produces exactly one enabling transition. -/
theorem emergency_throttle_spec_witness :
    Mystify.check_emergency_cpu_throttle 95 mystify_state0 =
      { mystify_state0 with is_emergency_throttled := true,
                            timer_interval := 1000 } ∧
    enable_count (fun s2 c => Mystify.check_emergency_cpu_throttle c s2)
      (fun s2 => s2.is_emergency_throttled) mystify_state0 [95, 99] = 1 :=
  ⟨emergency_throttle_spec.1 95 mystify_state0 (by norm_num) rfl,
   (emergency_throttle_spec.2.2.2.2.2.2.2.2.1 mystify_state0 [95, 99]
     (by simp) (by decide) rfl).1⟩

lemma qmem_max_sub (lo d q : ℚ) (hlo : 3/10 ≤ lo) (hlo1 : lo ≤ 1) (hd : 0 ≤ d)
    (hq1 : q ≤ 1) : 3/10 ≤ max lo (q - d) ∧ max lo (q - d) ≤ 1 :=
  ⟨le_trans hlo (le_max_left _ _), max_le hlo1 (by linarith)⟩

lemma qmem_min_clamp (c q : ℚ) (hc : 3/10 ≤ c) (hq : 3/10 ≤ q) (hq1 : q ≤ 1) :
    3/10 ≤ min c q ∧ min c q ≤ 1 :=
  ⟨le_min hc hq, le_trans (min_le_right _ _) hq1⟩

lemma frame_time_adjust_quality (ft : List ℚ) (s : Mystify.MystifyState)
    (h1 : 3/10 ≤ s.quality_level) (h2 : s.quality_level ≤ 1) :
    3/10 ≤ (Mystify.frame_time_adjust ft s).quality_level ∧
    (Mystify.frame_time_adjust ft s).quality_level ≤ 1 := by
  unfold Mystify.frame_time_adjust
  split_ifs
  · exact ⟨h1, h2⟩
  · exact qmem_max_sub (1/2) (1/20) s.quality_level (by norm_num) (by norm_num)
      (by norm_num) h2
  · exact ⟨le_min (by norm_num) (by linarith), min_le_left _ _⟩
  · exact ⟨h1, h2⟩

lemma cpu_adjust_quality (cpu : ℚ) (s : Mystify.MystifyState)
    (h1 : 3/10 ≤ s.quality_level) (h2 : s.quality_level ≤ 1) :
    3/10 ≤ (Mystify.cpu_adjust cpu s).quality_level ∧
    (Mystify.cpu_adjust cpu s).quality_level ≤ 1 := by
  unfold Mystify.cpu_adjust
  split_ifs
  · exact qmem_max_sub (3/10) (1/10) s.quality_level (by norm_num) (by norm_num)
      (by norm_num) h2
  · exact qmem_max_sub (3/10) (1/10) s.quality_level (by norm_num) (by norm_num)
      (by norm_num) h2
  · exact ⟨h1, h2⟩

lemma memory_adjust_quality (mem : ℚ) (s : Mystify.MystifyState)
    (h1 : 3/10 ≤ s.quality_level) (h2 : s.quality_level ≤ 1) :
    3/10 ≤ (Mystify.memory_adjust mem s).quality_level ∧
    (Mystify.memory_adjust mem s).quality_level ≤ 1 := by
  unfold Mystify.memory_adjust
  split_ifs
  · exact qmem_max_sub (3/10) (1/10) s.quality_level (by norm_num) (by norm_num)
      (by norm_num) h2
  · exact qmem_max_sub (3/10) (1/10) s.quality_level (by norm_num) (by norm_num)
      (by norm_num) h2
  · exact ⟨h1, h2⟩

lemma energy_clamp_quality (ee : Bool) (fc : ℕ) (tsa : Option ℚ) (q : ℚ)
    (h1 : 3/10 ≤ q) (h2 : q ≤ 1) :
    3/10 ≤ Mystify.energy_clamp ee fc tsa q ∧
    Mystify.energy_clamp ee fc tsa q ≤ 1 := by
  cases tsa with
  | none =>
    unfold Mystify.energy_clamp
    split_ifs
    · exact ⟨h1, h2⟩
    · exact ⟨h1, h2⟩
  | some t =>
    unfold Mystify.energy_clamp
    split_ifs with hg
    · dsimp only
      split_ifs
      · exact qmem_min_clamp (7/10) q (by norm_num) h1 h2
      · exact ⟨h1, h2⟩
    · exact ⟨h1, h2⟩

lemma apply_perf_opt_quality (ps ee : Bool) (fc : ℕ) (tsa : Option ℚ) (q : ℚ)
    (h1 : 3/10 ≤ q) (h2 : q ≤ 1) :
    3/10 ≤ (Mystify.apply_performance_optimizations ps ee fc tsa q).2 ∧
    (Mystify.apply_performance_optimizations ps ee fc tsa q).2 ≤ 1 := by
  unfold Mystify.apply_performance_optimizations
  split_ifs with hskip hps
  · exact ⟨h1, h2⟩
  · have hin := qmem_min_clamp (6/10) q (by norm_num) h1 h2
    exact energy_clamp_quality ee fc tsa _ hin.1 hin.2
  · exact energy_clamp_quality ee fc tsa q h1 h2

/-- C5: the quality level stays within `[0.3, 1.0]`: the initial value is
1.0, and every adaptive-performance adjustment (frame-time, CPU and
memory branches chained in source order) and every power-saving /
energy-efficient clamp maps a quality level in that range back into it. -/
theorem quality_level_bounds :
    ((3 : ℚ)/10 ≤ Mystify.quality_level_start ∧
      Mystify.quality_level_start ≤ 1) ∧
    (∀ (cpu mem : ℚ) (ft : List ℚ) (s : Mystify.MystifyState),
      3/10 ≤ s.quality_level → s.quality_level ≤ 1 →
      3/10 ≤ (Mystify.adaptive_performance_adjustment cpu mem ft s).quality_level ∧
      (Mystify.adaptive_performance_adjustment cpu mem ft s).quality_level ≤ 1) ∧
    ∀ (ps ee : Bool) (fc : ℕ) (tsa : Option ℚ) (q : ℚ),
      3/10 ≤ q → q ≤ 1 →
      3/10 ≤ (Mystify.apply_performance_optimizations ps ee fc tsa q).2 ∧
      (Mystify.apply_performance_optimizations ps ee fc tsa q).2 ≤ 1 := by
  refine ⟨⟨by norm_num [Mystify.quality_level_start],
    by norm_num [Mystify.quality_level_start]⟩, ?_, apply_perf_opt_quality⟩
  intro cpu mem ft s h1 h2
  unfold Mystify.adaptive_performance_adjustment
  have hft := frame_time_adjust_quality ft s h1 h2
  have hcpu := cpu_adjust_quality cpu _ hft.1 hft.2
  exact memory_adjust_quality mem _ hcpu.1 hcpu.2

/-- Witness for `quality_level_bounds`: one full adjustment pass over the
test state (CPU 50%, memory 80%, empty frame-time window). -/
theorem quality_level_bounds_witness :
    3/10 ≤ (Mystify.adaptive_performance_adjustment 50 80 []
      mystify_state0).quality_level ∧
    (Mystify.adaptive_performance_adjustment 50 80 []
      mystify_state0).quality_level ≤ 1 :=
  quality_level_bounds.2.1 50 80 [] mystify_state0
    (by norm_num [mystify_state0]) (by norm_num [mystify_state0])

lemma frame_time_adjust_entities (ft : List ℚ) (s : Mystify.MystifyState) :
    (Mystify.frame_time_adjust ft s).shapes = s.shapes ∧
    (Mystify.frame_time_adjust ft s).shape_trails = s.shape_trails := by
  unfold Mystify.frame_time_adjust
  split_ifs <;> exact ⟨rfl, rfl⟩

lemma cpu_adjust_entities (cpu : ℚ) (s : Mystify.MystifyState) :
    (Mystify.cpu_adjust cpu s).shapes = s.shapes ∧
    (Mystify.cpu_adjust cpu s).shape_trails = s.shape_trails := by
  unfold Mystify.cpu_adjust
  split_ifs <;> exact ⟨rfl, rfl⟩

lemma memory_adjust_entities (mem : ℚ) (s : Mystify.MystifyState) :
    (Mystify.memory_adjust mem s).shapes = s.shapes ∧
    (Mystify.memory_adjust mem s).shape_trails = s.shape_trails := by
  unfold Mystify.memory_adjust
  split_ifs <;> exact ⟨rfl, rfl⟩

/-- C6: neither the adaptive-quality mechanism nor the emergency throttle
changes the number of simulated entities: the shape list (and its trails
list) of the curve engine and the column list of the rain engine are left
untouched — only quality level, frame-skip, trail length and timer
interval fields may change. -/
theorem entity_count_preserved :
    (∀ (cpu mem : ℚ) (ft : List ℚ) (s : Mystify.MystifyState),
      (Mystify.adaptive_performance_adjustment cpu mem ft s).shapes = s.shapes ∧
      (Mystify.adaptive_performance_adjustment cpu mem ft s).shape_trails =
        s.shape_trails ∧
      (Mystify.adaptive_performance_adjustment cpu mem ft s).shapes.length =
        s.shapes.length) ∧
    (∀ (cpu : ℚ) (s : Mystify.MystifyState),
      (Mystify.check_emergency_cpu_throttle cpu s).shapes = s.shapes ∧
      (Mystify.check_emergency_cpu_throttle cpu s).shape_trails =
        s.shape_trails) ∧
    ∀ (cpu : ℚ) (t : MatrixRain.MatrixState),
      (MatrixRain.check_emergency_cpu_throttle cpu t).columns = t.columns ∧
      (MatrixRain.check_emergency_cpu_throttle cpu t).columns.length =
        t.columns.length := by
  refine ⟨?_, ?_, ?_⟩
  · intro cpu mem ft s
    have a := frame_time_adjust_entities ft s
    have b := cpu_adjust_entities cpu (Mystify.frame_time_adjust ft s)
    have c := memory_adjust_entities mem
      (Mystify.cpu_adjust cpu (Mystify.frame_time_adjust ft s))
    unfold Mystify.adaptive_performance_adjustment
    exact ⟨c.1.trans (b.1.trans a.1), c.2.trans (b.2.trans a.2),
      by rw [c.1, b.1, a.1]⟩
  · intro cpu s
    unfold Mystify.check_emergency_cpu_throttle
    split_ifs <;> exact ⟨rfl, rfl⟩
  · intro cpu t
    unfold MatrixRain.check_emergency_cpu_throttle
    split_ifs <;> exact ⟨rfl, rfl⟩

namespace MatrixRain

/-- A Qt color as constructed by the rain renderer: either
`QColor.fromHsv(h, s, v)` or an RGB color with an alpha channel. -/
inductive ColorM where
  | hsv (h s v : ℤ)
  | rgba (r g b a : ℕ)
deriving DecidableEq

/-- `self.head_color = QColor(255, 255, 255)` from `setup_colors`. -/
def head_color : ColorM := ColorM.rgba 255 255 255 255

/-- `self.fade_colors` from `setup_colors`: twenty copies of the primary
color with alpha `max(50, 255 - i * 12)`. -/
def fade_colors (r g b : ℕ) : List ColorM :=
  (List.range 20).map (fun i => ColorM.rgba r g b (max 50 (255 - i * 12)))

/-- Per-character color policy of `draw_column`: the head uses the bright
accent (or the time/x-based rainbow hue); trailing characters fade by
index, with coarser hue steps and faster brightness falloff in rainbow
mode. -/
def char_color (rainbow : Bool) (fades : List ColorM) (base_hue : ℚ)
    (i : ℕ) : ColorM :=
  if i = 0 then
    if rainbow then ColorM.hsv (py_int base_hue) 255 255 else head_color
  else
    if rainbow then
      ColorM.hsv (py_int (py_mod (base_hue + (i : ℚ) * 30) 360)) 255
        (max 30 (255 - (i : ℤ) * 25))
    else fades.getD (min i (fades.length - 1)) head_color

/-- One character actually drawn by `draw_column` (`pos` is the float
position; the source hands `int(pos)` to `painter.drawText`). -/
structure DrawnChar where
  x : ℤ
  pos : ℚ
  color : ColorM
  glyph : Char
deriving DecidableEq

/-- The character loop of `draw_column`: `continue` on characters outside
`[-50, screen_height + 50]`, `break` once the index exceeds the hard cap
of 10 drawn trail characters, otherwise draw with the index's color. -/
def draw_chars (rainbow : Bool) (fades : List ColorM)
    (screen_height base_hue : ℚ) (x : ℤ) :
    ℕ → List (Char × ℚ) → List DrawnChar
  | _, [] => []
  | i, (c, p) :: rest =>
    if p < -50 ∨ screen_height + 50 < p then
      draw_chars rainbow fades screen_height base_hue x (i + 1) rest
    else if 10 < i then []
    else
      { x := x, pos := p, color := char_color rainbow fades base_hue i,
        glyph := c } ::
        draw_chars rainbow fades screen_height base_hue x (i + 1) rest

/-- `draw_column` from `sidekick_widget.py`: compute the column's rainbow
base hue `(current_time * 100 + column.x) % 360` and run the character
loop over the zipped character/position lists (ages are unused by the
loop body). -/
def draw_column (rainbow : Bool) (fades : List ColorM)
    (screen_height current_time : ℚ) (col : MatrixColumn) : List DrawnChar :=
  draw_chars rainbow fades screen_height
    (py_mod (current_time * 100 + (col.x : ℚ)) 360) col.x 0
    (col.characters.zip col.char_positions)

end MatrixRain

lemma draw_chars_onscreen (rainbow : Bool) (fades : List MatrixRain.ColorM)
    (h base_hue : ℚ) (x : ℤ) :
    ∀ (l : List (Char × ℚ)) (i : ℕ)
      (d : MatrixRain.DrawnChar),
      d ∈ MatrixRain.draw_chars rainbow fades h base_hue x i l →
      -50 ≤ d.pos ∧ d.pos ≤ h + 50 := by
  intro l
  induction l with
  | nil => intro i d hd; exact absurd hd (List.not_mem_nil d)
  | cons cp rest ih =>
    intro i d hd
    rcases cp with ⟨c, p⟩
    unfold MatrixRain.draw_chars at hd
    split_ifs at hd with hoff hbreak
    · exact ih (i + 1) d hd
    · exact absurd hd (List.not_mem_nil d)
    · rcases List.mem_cons.mp hd with rfl | hd2
      · push_neg at hoff
        exact ⟨hoff.1, hoff.2⟩
      · exact ih (i + 1) d hd2

/-- C7: the rain renderer never draws a character whose vertical position
lies outside `[-margin, screenHeight + margin]` with `margin = 50`: every
character emitted by `draw_column` has its position inside that band. -/
theorem draw_column_onscreen (rainbow : Bool) (fades : List MatrixRain.ColorM)
    (screen_height current_time : ℚ) (col : MatrixRain.MatrixColumn) :
    ∀ d ∈ MatrixRain.draw_column rainbow fades screen_height current_time col,
      -50 ≤ d.pos ∧ d.pos ≤ screen_height + 50 := by
  intro d hd
  exact draw_chars_onscreen rainbow fades screen_height _ col.x
    (col.characters.zip col.char_positions) 0 d hd

/-- A concrete two-character column: one character on screen at position
5, one far above the screen at position -200. -/
def matrix_column0 : MatrixRain.MatrixColumn :=
  { x := 0, characters := ['a', 'b'], char_positions := [5, -200],
    char_ages := [0, 1], head_position := 5, speed := 1, length := 2 }

/-- Witness for `draw_column_onscreen`: on a height-100 screen the drawn
head character of `matrix_column0` sits inside `[-50, 150]` (the -200
character is skipped). -/
theorem draw_column_onscreen_witness :
    -50 ≤ (⟨0, 5, MatrixRain.head_color, 'a'⟩ : MatrixRain.DrawnChar).pos ∧
    (⟨0, 5, MatrixRain.head_color, 'a'⟩ : MatrixRain.DrawnChar).pos ≤ 100 + 50 :=
  draw_column_onscreen false (MatrixRain.fade_colors 0 255 0) 100 0
    matrix_column0 ⟨0, 5, MatrixRain.head_color, 'a'⟩
    (by norm_num [MatrixRain.draw_column, MatrixRain.draw_chars,
      MatrixRain.char_color, matrix_column0])

namespace Mystify

/-- Oracle supplying the random draws of `init_shapes`, indexed by the
shape index (and control-point index where the source draws per point):
`point i j` models `randint(100, width-100) × randint(100, height-100)`,
`vel`/`cvel` model the `uniform(-speed, speed)` velocity draws, `hue`
models `randint(0, 360)` (both bounds inclusive), `shift` models
`uniform(0.5, 2.0)`, `size` models `uniform(0.1, 0.3)` and `tension`
models `uniform(0.3, 0.8)`. -/
structure RandOracle where
  point : ℕ → ℕ → ℤ × ℤ
  vel : ℕ → ℕ → ℚ × ℚ
  cvel : ℕ → ℕ → ℚ × ℚ
  hue : ℕ → ℤ
  shift : ℕ → ℚ
  size : ℕ → ℚ
  tension : ℕ → ℚ

/-- `num_control_points = max(3, self.shape_complexity // 2)` from
`init_shapes`. -/
def num_control_points (shape_complexity : ℕ) : ℕ :=
  max 3 (shape_complexity / 2)

/-- `init_shapes` from `mystify_widget.py`: build `num_shapes` shapes;
each gets `max(3, complexity // 2)` control points with one velocity and
one control-handle velocity per point, plus random hue, color shift,
size factor and curve tension. -/
def init_shapes (num_shapes shape_complexity : ℕ) (r : RandOracle) :
    List Shape :=
  (List.range num_shapes).map (fun i =>
    { control_points :=
        (List.range (num_control_points shape_complexity)).map
          (fun j => (((r.point i j).1 : ℚ), ((r.point i j).2 : ℚ)))
      velocities :=
        (List.range (num_control_points shape_complexity)).map (r.vel i)
      control_velocities :=
        (List.range (num_control_points shape_complexity)).map (r.cvel i)
      color_hue := (r.hue i : ℚ)
      color_shift := r.shift i
      size_factor := r.size i
      curve_tension := r.tension i })

/-- The hue update from `_update_shape_animations` (lines 427-429): gated
on `quality_level > 0.7 or frame_count % 3 == 0`, advance the hue by the
shape's color shift modulo 360. -/
def update_color_hue (quality_level : ℚ) (frame_count : ℕ)
    (color_hue color_shift : ℚ) : ℚ :=
  if 7/10 < quality_level ∨ frame_count % 3 = 0 then
    py_mod (color_hue + color_shift) 360
  else color_hue

end Mystify

/-- C8: with `mystify_shapes = 3` and `mystify_complexity = 6`, engine
initialization produces exactly 3 shapes, each with
`max(3, 6 // 2) = 3` control points and one velocity per control point
(parallel sequences of equal length). -/
theorem init_shapes_counts (r : Mystify.RandOracle) :
    (Mystify.init_shapes 3 6 r).length = 3 ∧
    Mystify.num_control_points 6 = 3 ∧
    ∀ s ∈ Mystify.init_shapes 3 6 r,
      s.control_points.length = 3 ∧
      s.velocities.length = s.control_points.length := by
  refine ⟨by simp [Mystify.init_shapes], rfl, ?_⟩
  intro s hs
  unfold Mystify.init_shapes at hs
  rw [List.mem_map] at hs
  obtain ⟨i, _, rfl⟩ := hs
  simp [Mystify.num_control_points]

/-- A concrete deterministic oracle with all draws inside the source's
documented ranges. -/
def rand_oracle0 : Mystify.RandOracle :=
  { point := fun _ _ => (100, 100), vel := fun _ _ => (1, 1),
    cvel := fun _ _ => (1/2, 1/2), hue := fun _ => 240,
    shift := fun _ => 1, size := fun _ => 1/5, tension := fun _ => 1/2 }

/-- The shape `init_shapes 3 6 rand_oracle0` produces (three times). -/
def shape0 : Mystify.Shape :=
  { control_points := [(100, 100), (100, 100), (100, 100)],
    velocities := [(1, 1), (1, 1), (1, 1)],
    control_velocities := [(1/2, 1/2), (1/2, 1/2), (1/2, 1/2)],
    color_hue := 240, color_shift := 1, size_factor := 1/5,
    curve_tension := 1/2 }

/-- Witness for `init_shapes_counts`: the first shape produced under
`rand_oracle0` has 3 control points and 3 velocities. -/
theorem init_shapes_counts_witness :
    (Mystify.init_shapes 3 6 rand_oracle0).length = 3 ∧
    shape0.control_points.length = 3 ∧
    shape0.velocities.length = shape0.control_points.length :=
  ⟨(init_shapes_counts rand_oracle0).1,
   ((init_shapes_counts rand_oracle0).2.2 shape0
     (by norm_num [Mystify.init_shapes, Mystify.num_control_points,
       rand_oracle0, shape0, List.replicate])).1,
   ((init_shapes_counts rand_oracle0).2.2 shape0
     (by norm_num [Mystify.init_shapes, Mystify.num_control_points,
       rand_oracle0, shape0, List.replicate])).2⟩

/-- An oracle whose hue draw returns 360 — a legal `randint(0, 360)`
result, since Python's `randint` includes both endpoints. -/
def hue360_oracle : Mystify.RandOracle :=
  { point := fun _ _ => (100, 100), vel := fun _ _ => (1, 1),
    cvel := fun _ _ => (1/2, 1/2), hue := fun _ => 360,
    shift := fun _ => 1, size := fun _ => 1/5, tension := fun _ => 1/2 }

/-- C10 counterexample: `color_hue` is drawn with `randint(0, 360)`,
whose upper bound is inclusive, so a freshly initialized shape can carry
hue 360 — outside the claimed `[0, 360)` — until its first hue update. -/
theorem color_hue_counterexample :
    ((0 : ℤ) ≤ 360 ∧ (360 : ℤ) ≤ 360) ∧
    (Mystify.init_shapes 1 6 hue360_oracle).map Mystify.Shape.color_hue =
      [360] ∧
    ¬ ((360 : ℚ) < 360) := by
  refine ⟨⟨by norm_num, le_refl _⟩, ?_, by norm_num⟩
  norm_num [Mystify.init_shapes, hue360_oracle]

/-- C10 amended: immediately after initialization every shape's hue lies
in the closed interval `[0, 360]` (the `randint(0, 360)` draw can return
360 itself), and every applied hue update `(hue + shift) % 360` lands in
`[0, 360)`. -/
theorem color_hue_range (r : Mystify.RandOracle)
    (hr : ∀ i, 0 ≤ r.hue i ∧ r.hue i ≤ 360) (n c : ℕ) :
    (∀ s ∈ Mystify.init_shapes n c r,
      0 ≤ s.color_hue ∧ s.color_hue ≤ 360) ∧
    ∀ (q : ℚ) (fc : ℕ) (hue shift : ℚ), 7/10 < q ∨ fc % 3 = 0 →
      0 ≤ Mystify.update_color_hue q fc hue shift ∧
      Mystify.update_color_hue q fc hue shift < 360 := by
  constructor
  · intro s hs
    unfold Mystify.init_shapes at hs
    rw [List.mem_map] at hs
    obtain ⟨i, _, rfl⟩ := hs
    dsimp only
    constructor
    · exact_mod_cast (hr i).1
    · exact_mod_cast (hr i).2
  · intro q fc hue shift hgate
    unfold Mystify.update_color_hue
    rw [if_pos hgate]
    exact ⟨py_mod_nonneg _ 360 (by norm_num), py_mod_lt _ 360 (by norm_num)⟩

/-- Witness for `color_hue_range`: the concrete shape built under
`rand_oracle0` has hue 240 ∈ [0, 360], and a full-quality update of hue
350 by shift 20 lands at 10 ∈ [0, 360). -/
theorem color_hue_range_witness :
    (0 ≤ shape0.color_hue ∧ shape0.color_hue ≤ 360) ∧
    (0 ≤ Mystify.update_color_hue 1 0 350 20 ∧
      Mystify.update_color_hue 1 0 350 20 < 360) :=
  ⟨(color_hue_range rand_oracle0
      (fun _ => ⟨by norm_num [rand_oracle0], by norm_num [rand_oracle0]⟩)
      3 6).1 shape0
      (by norm_num [Mystify.init_shapes, Mystify.num_control_points,
        rand_oracle0, shape0, List.replicate]),
   (color_hue_range rand_oracle0
      (fun _ => ⟨by norm_num [rand_oracle0], by norm_num [rand_oracle0]⟩)
      3 6).2 1 0 350 20 (Or.inl (by norm_num))⟩
